import Mathlib

/-!
Shallow embedding of `setup.py` from the `rindeal/travis-ci-utils` repository.

The script does, in order:
1. `sys.path.insert(0, ".")`
2. `from rindeal.travis_ci._pkg_metadata import metadata`
3. calls `distutils.core.setup` with nine keyword arguments, seven of which
   are attribute reads on the imported `metadata` object, plus literal
   one-element tuples `packages=("rindeal.travis_ci",)` and
   `scripts=("bin/travis-ci-utils",)`.

We model the `metadata` object (constructed outside the provided source) as a
record of optional string attributes: `none` models the attribute being
absent, in which case the Python attribute access raises `AttributeError`,
the uncaught exception aborts the script with a non-zero exit, and `setup`
is never reached.  The run of the script is a pure function from the initial
`sys.path` and the metadata object to a result record carrying the final
`sys.path`, the trace of observable events, the (unchanged) metadata object
and the exit status.
-/

/-- A Python value occurring in the `setup(...)` call: a string, or a tuple
of strings (Python tuple literals such as `("rindeal.travis_ci",)`; tuples
are Python's immutable sequences, as opposed to lists). -/
inductive PyVal where
  | str : String → PyVal
  | tuple : List String → PyVal
  deriving DecidableEq, Repr

/-- The `metadata` object imported from `rindeal.travis_ci._pkg_metadata`.
Each field is the corresponding Python attribute; `none` models the
attribute being absent from the object. -/
structure Metadata where
  name : Option String
  version : Option String
  short_description : Option String
  url : Option String
  author : Option String
  author_email : Option String
  licence_name : Option String
  deriving DecidableEq, Repr

/-- `true` iff the metadata object exposes all seven attributes that
`setup.py` reads. -/
def Metadata.complete (md : Metadata) : Bool :=
  md.name.isSome && md.version.isSome && md.short_description.isSome &&
    md.url.isSome && md.author.isSome && md.author_email.isSome &&
    md.licence_name.isSome

/-- Python `getattr(metadata, field)`, restricted to the attributes
referenced by `setup.py`; `none` models `AttributeError`. -/
def Metadata.getattr (md : Metadata) : String → Option String
  | "name" => md.name
  | "version" => md.version
  | "short_description" => md.short_description
  | "url" => md.url
  | "author" => md.author
  | "author_email" => md.author_email
  | "licence_name" => md.licence_name
  | _ => none

/-- Observable events of a run of `setup.py`. -/
inductive Event where
  /-- `sys.path.insert(idx, entry)`. -/
  | pathInsert : Nat → String → Event
  /-- `from rindeal.travis_ci._pkg_metadata import metadata`. -/
  | importMeta : Event
  /-- A read of attribute `field` on the `metadata` object. -/
  | attrRead : String → Event
  /-- A write of attribute `field` on the `metadata` object (never emitted
  by `setup.py`; present so that read-only-ness is a statable property). -/
  | attrWrite : String → String → Event
  /-- The `distutils.core.setup(...)` call with its keyword arguments. -/
  | setupCall : List (String × PyVal) → Event
  deriving DecidableEq, Repr

/-- Is this event the packaging (`setup`) call? -/
def Event.isSetupCall : Event → Bool
  | .setupCall _ => true
  | _ => false

/-- Is this event the metadata-module import? -/
def Event.isImportMeta : Event → Bool
  | .importMeta => true
  | _ => false

/-- Is this event an attribute read on the metadata object? -/
def Event.isAttrRead : Event → Bool
  | .attrRead _ => true
  | _ => false

/-- Is this event an attribute write on the metadata object? -/
def Event.isAttrWrite : Event → Bool
  | .attrWrite _ _ => true
  | _ => false

/-- Does this event operate on the metadata object at all? -/
def Event.touchesMetadata : Event → Bool
  | .attrRead _ => true
  | .attrWrite _ _ => true
  | _ => false

/-- The metadata attributes read by `setup.py`, in the left-to-right
evaluation order of the arguments of the `setup(...)` call. -/
def setupAttrNames : List String :=
  ["name", "version", "short_description", "url", "author", "author_email",
    "licence_name"]

/-- The keyword names under which the seven attribute values are passed to
`setup`, in the same order (`short_description` is passed as `description`,
`licence_name` as `license`). -/
def setupKwargNames : List String :=
  ["name", "version", "description", "url", "author", "author_email",
    "license"]

/-- Read the listed attributes of `md` from left to right, recording one
`attrRead` event per attempted access.  The first missing attribute raises
`AttributeError`: the result is `none` and no later attribute is read. -/
def evalAttrs (md : Metadata) : List String → List Event × Option (List String)
  | [] => ([], some [])
  | f :: rest =>
    match md.getattr f with
    | none => ([Event.attrRead f], none)
    | some v =>
      let r := evalAttrs md rest
      (Event.attrRead f :: r.1, r.2.map fun vs => v :: vs)

/-- The keyword-argument list of the `setup(...)` call, given the seven
attribute values in evaluation order: the seven metadata-derived string
arguments followed by the literal `packages` and `scripts` tuples. -/
def mkSetupKwargs (vals : List String) : List (String × PyVal) :=
  setupKwargNames.zip (vals.map PyVal.str) ++
    [("packages", PyVal.tuple ["rindeal.travis_ci"]),
      ("scripts", PyVal.tuple ["bin/travis-ci-utils"])]

/-- The result of a run of `setup.py`. -/
structure ScriptResult where
  /-- `sys.path` after the run. -/
  sysPath : List String
  /-- The trace of observable events, in order. -/
  events : List Event
  /-- The metadata object after the run. -/
  mdFinal : Metadata
  /-- `true` iff the script exited successfully (exit code 0). -/
  exitOk : Bool
  deriving Repr

/-- A run of `setup.py`: insert `"."` at position 0 of `sys.path`, import
the metadata object, evaluate the `setup` arguments left to right, and, if
all attribute reads succeed, perform the single `setup(...)` call.  A
missing attribute aborts with `AttributeError` (non-zero exit) before
`setup` is reached. -/
def runScript (path0 : List String) (md : Metadata) : ScriptResult :=
  let path1 := List.insertIdx 0 "." path0
  let r := evalAttrs md setupAttrNames
  match r.2 with
  | some vals =>
    { sysPath := path1
      events := Event.pathInsert 0 "." :: Event.importMeta ::
        (r.1 ++ [Event.setupCall (mkSetupKwargs vals)])
      mdFinal := md
      exitOk := true }
  | none =>
    { sysPath := path1
      events := Event.pathInsert 0 "." :: Event.importMeta :: r.1
      mdFinal := md
      exitOk := false }

/-- The wider execution environment of a run: environment variables, file
contents, and the initial `sys.path`, besides the metadata object.
`setup.py` consults neither `env` nor `files` (the source contains no
`os.environ` access and opens no file), so `runScriptFull` passes only
`path` and `metadata` on to `runScript`. -/
structure ScriptInput where
  env : String → Option String
  files : String → Option String
  path : List String
  metadata : Metadata

/-- A run of `setup.py` from a full execution environment.  The script
reads no environment variables, files or persisted state, so the run is
determined by `sys.path` and the metadata object alone. -/
def runScriptFull (inp : ScriptInput) : ScriptResult :=
  runScript inp.path inp.metadata

example :
    (runScript ["lib"]
      ⟨some "n", some "v", some "d", some "u", some "a", some "e",
        some "l"⟩).exitOk = true := by decide

example :
    (runScript ["lib"]
      ⟨none, some "v", some "d", some "u", some "a", some "e",
        some "l"⟩).exitOk = false := by decide

/-! ### Basic lemmas about `evalAttrs` and `runScript` -/

theorem evalAttrs_all_reads (md : Metadata) (fs : List String) :
    ∀ e ∈ (evalAttrs md fs).1, e.isAttrRead = true := by
  induction fs with
  | nil => intro e he; simp [evalAttrs] at he
  | cons f rest ih =>
    intro e he
    cases h : md.getattr f with
    | none =>
      simp [evalAttrs, h] at he
      simp [he, Event.isAttrRead]
    | some v =>
      simp [evalAttrs, h] at he
      rcases he with he | he
      · simp [he, Event.isAttrRead]
      · exact ih e he

theorem evalAttrs_filter_eq_nil (md : Metadata) (fs : List String)
    (q : Event → Bool) (hq : ∀ s, q (Event.attrRead s) = false) :
    (evalAttrs md fs).1.filter q = [] := by
  rw [List.filter_eq_nil_iff]
  intro e he
  have hr := evalAttrs_all_reads md fs e he
  cases e <;> simp_all [Event.isAttrRead, hq]

theorem evalAttrs_filter_eq_self (md : Metadata) (fs : List String)
    (q : Event → Bool) (hq : ∀ s, q (Event.attrRead s) = true) :
    (evalAttrs md fs).1.filter q = (evalAttrs md fs).1 := by
  rw [List.filter_eq_self]
  intro e he
  have hr := evalAttrs_all_reads md fs e he
  cases e <;> simp_all [Event.isAttrRead, hq]

theorem runScript_events (p : List String) (md : Metadata) :
    (runScript p md).events =
      Event.pathInsert 0 "." :: Event.importMeta ::
        ((evalAttrs md setupAttrNames).1 ++
          match (evalAttrs md setupAttrNames).2 with
          | some vals => [Event.setupCall (mkSetupKwargs vals)]
          | none => []) := by
  unfold runScript
  cases h : (evalAttrs md setupAttrNames).2 <;> simp [h]

theorem runScript_sysPath (p : List String) (md : Metadata) :
    (runScript p md).sysPath = "." :: p := by
  unfold runScript
  cases h : (evalAttrs md setupAttrNames).2 <;> simp [h, List.insertIdx_zero]

theorem runScript_mdFinal (p : List String) (md : Metadata) :
    (runScript p md).mdFinal = md := by
  unfold runScript
  cases h : (evalAttrs md setupAttrNames).2 <;> simp [h]

theorem runScript_exitOk (p : List String) (md : Metadata) :
    (runScript p md).exitOk = (evalAttrs md setupAttrNames).2.isSome := by
  unfold runScript
  cases h : (evalAttrs md setupAttrNames).2 <;> simp [h]

theorem evalAttrs_isSome_iff_complete (md : Metadata) :
    (evalAttrs md setupAttrNames).2.isSome = md.complete := by
  rcases md with ⟨n, v, d, u, a, ae, l⟩
  cases n <;> cases v <;> cases d <;> cases u <;> cases a <;> cases ae <;>
    cases l <;>
    simp [evalAttrs, setupAttrNames, Metadata.getattr, Metadata.complete]

/-! ### The claims -/

/-- Claim C1: running the script performs exactly one packaging call, and
each metadata-derived named argument of that call equals the corresponding
attribute of the metadata object: name = metadata.name,
version = metadata.version, description = metadata.short_description,
url = metadata.url, author = metadata.author,
author_email = metadata.author_email, license = metadata.licence_name — for
every metadata object exposing those seven attributes. -/
theorem claim_single_setup_call_args_match (p : List String)
    (n v d u a ae l : String) :
    ((runScript p
        ⟨some n, some v, some d, some u, some a, some ae,
          some l⟩).events.filter Event.isSetupCall) =
      [Event.setupCall
        [("name", PyVal.str n), ("version", PyVal.str v),
          ("description", PyVal.str d), ("url", PyVal.str u),
          ("author", PyVal.str a), ("author_email", PyVal.str ae),
          ("license", PyVal.str l),
          ("packages", PyVal.tuple ["rindeal.travis_ci"]),
          ("scripts", PyVal.tuple ["bin/travis-ci-utils"])]] := rfl

/-- Claim C2: the packages argument passed to the packaging call contains
exactly one entry, the package identifier string "rindeal.travis_ci". -/
theorem claim_packages_single_entry (p : List String)
    (n v d u a ae l : String) :
    ∃ kwargs,
      ((runScript p
          ⟨some n, some v, some d, some u, some a, some ae,
            some l⟩).events.filter Event.isSetupCall) =
        [Event.setupCall kwargs] ∧
      kwargs.lookup "packages" = some (PyVal.tuple ["rindeal.travis_ci"]) :=
  ⟨_, rfl, rfl⟩

/-- Claim C3: the scripts argument passed to the packaging call contains
exactly one entry, the script path string "bin/travis-ci-utils". -/
theorem claim_scripts_single_entry (p : List String)
    (n v d u a ae l : String) :
    ∃ kwargs,
      ((runScript p
          ⟨some n, some v, some d, some u, some a, some ae,
            some l⟩).events.filter Event.isSetupCall) =
        [Event.setupCall kwargs] ∧
      kwargs.lookup "scripts" = some (PyVal.tuple ["bin/travis-ci-utils"]) :=
  ⟨_, rfl, rfl⟩

/-- Claim C4: for every metadata object exposing all seven referenced
fields, the attribute accesses all succeed (the reads yield a value list)
and the attribute-error branch is unreachable: the run exits successfully. -/
theorem claim_complete_metadata_reads_succeed (p : List String)
    (md : Metadata) (h : md.complete = true) :
    (evalAttrs md setupAttrNames).2.isSome = true ∧
      (runScript p md).exitOk = true := by
  constructor
  · rw [evalAttrs_isSome_iff_complete]; exact h
  · rw [runScript_exitOk, evalAttrs_isSome_iff_complete]; exact h

theorem claim_complete_metadata_reads_succeed_witness :
    (evalAttrs
        ⟨some "travis-ci-utils", some "1.0", some "utils", some "u",
          some "rindeal", some "m", some "GPL-3"⟩ setupAttrNames).2.isSome =
      true ∧
      (runScript []
        ⟨some "travis-ci-utils", some "1.0", some "utils", some "u",
          some "rindeal", some "m", some "GPL-3"⟩).exitOk = true :=
  claim_complete_metadata_reads_succeed [] _ (by decide)

/-- Claim C5: for every metadata object missing at least one of the seven
referenced fields, the run fails (non-zero exit) and the packaging call is
never made. -/
theorem claim_missing_attribute_aborts (p : List String) (md : Metadata)
    (h : md.complete = false) :
    (runScript p md).exitOk = false ∧
      (runScript p md).events.filter Event.isSetupCall = [] := by
  have hnone : (evalAttrs md setupAttrNames).2 = none := by
    have hs := evalAttrs_isSome_iff_complete md
    rw [h] at hs
    exact Option.not_isSome_iff_eq_none.mp (by simp [hs])
  constructor
  · rw [runScript_exitOk, hnone]; rfl
  · rw [runScript_events, hnone]
    have h1 : (evalAttrs md setupAttrNames).1.filter Event.isSetupCall = [] :=
      evalAttrs_filter_eq_nil md setupAttrNames Event.isSetupCall fun s => rfl
    simp [Event.isSetupCall, h1]

theorem claim_missing_attribute_aborts_witness :
    (runScript []
        ⟨none, some "1.0", some "utils", some "u", some "rindeal", some "m",
          some "GPL-3"⟩).exitOk = false ∧
      (runScript []
          ⟨none, some "1.0", some "utils", some "u", some "rindeal",
            some "m", some "GPL-3"⟩).events.filter Event.isSetupCall = [] :=
  claim_missing_attribute_aborts [] _ (by decide)

/-- Claim C6: in every run the module-path insertion (of "." at index 0) is
the first event and the metadata import the second, and the import occurs
nowhere later in the trace; hence the insertion strictly precedes the
import, and the import is never executed before the insertion. -/
theorem claim_path_insert_before_import (p : List String) (md : Metadata) :
    (runScript p md).events.take 2 =
      [Event.pathInsert 0 ".", Event.importMeta] ∧
      ((runScript p md).events.drop 2).filter Event.isImportMeta = [] := by
  rw [runScript_events]
  refine ⟨rfl, ?_⟩
  have h1 : (evalAttrs md setupAttrNames).1.filter Event.isImportMeta = [] :=
    evalAttrs_filter_eq_nil md setupAttrNames Event.isImportMeta fun s => rfl
  cases h : (evalAttrs md setupAttrNames).2 <;>
    simp [h, h1, Event.isImportMeta]

/-- Claim C7: the script treats the metadata object as read-only: the
metadata object is unchanged after the run, every trace event touching the
metadata object is an attribute read, and no attribute write occurs. -/
theorem claim_metadata_read_only (p : List String) (md : Metadata) :
    (runScript p md).mdFinal = md ∧
      (runScript p md).events.filter Event.touchesMetadata =
        (runScript p md).events.filter Event.isAttrRead ∧
      (runScript p md).events.filter Event.isAttrWrite = [] := by
  refine ⟨runScript_mdFinal p md, ?_, ?_⟩
  · rw [runScript_events]
    have ht : (evalAttrs md setupAttrNames).1.filter Event.touchesMetadata =
        (evalAttrs md setupAttrNames).1 :=
      evalAttrs_filter_eq_self md setupAttrNames Event.touchesMetadata
        fun s => rfl
    have hr : (evalAttrs md setupAttrNames).1.filter Event.isAttrRead =
        (evalAttrs md setupAttrNames).1 :=
      evalAttrs_filter_eq_self md setupAttrNames Event.isAttrRead fun s => rfl
    cases h : (evalAttrs md setupAttrNames).2 <;>
      simp [h, ht, hr, Event.touchesMetadata, Event.isAttrRead]
  · rw [runScript_events]
    have hw : (evalAttrs md setupAttrNames).1.filter Event.isAttrWrite = [] :=
      evalAttrs_filter_eq_nil md setupAttrNames Event.isAttrWrite fun s => rfl
    cases h : (evalAttrs md setupAttrNames).2 <;>
      simp [h, hw, Event.isAttrWrite]

/-- Claim C8: the script is deterministic in the metadata object alone: it
consults neither environment variables nor files nor persisted state, so
two runs whose inputs agree on the metadata object produce identical
packaging-call argument sets and exit statuses, whatever their
environments, file systems and search paths. -/
theorem claim_deterministic_in_metadata (i1 i2 : ScriptInput)
    (h : i1.metadata = i2.metadata) :
    (runScriptFull i1).events.filter Event.isSetupCall =
      (runScriptFull i2).events.filter Event.isSetupCall ∧
      (runScriptFull i1).exitOk = (runScriptFull i2).exitOk := by
  unfold runScriptFull
  constructor
  · rw [runScript_events, runScript_events, h]
  · rw [runScript_exitOk, runScript_exitOk, h]

theorem claim_deterministic_in_metadata_witness :
    (runScriptFull
        { env := fun _ => some "CI", files := fun _ => some "data",
          path := ["a"],
          metadata := ⟨some "n", some "v", some "d", some "u", some "a",
            some "e", some "l"⟩ }).events.filter Event.isSetupCall =
      (runScriptFull
          { env := fun _ => none, files := fun _ => none,
            path := ["b", "c"],
            metadata := ⟨some "n", some "v", some "d", some "u", some "a",
              some "e", some "l"⟩ }).events.filter Event.isSetupCall ∧
      (runScriptFull
          { env := fun _ => some "CI", files := fun _ => some "data",
            path := ["a"],
            metadata := ⟨some "n", some "v", some "d", some "u", some "a",
              some "e", some "l"⟩ }).exitOk =
        (runScriptFull
            { env := fun _ => none, files := fun _ => none,
              path := ["b", "c"],
              metadata := ⟨some "n", some "v", some "d", some "u", some "a",
                some "e", some "l"⟩ }).exitOk :=
  claim_deterministic_in_metadata _ _ rfl

/-- Claim C9: for every initial module search path, the path manipulation
inserts "." unconditionally at index 0 (even if "." is already present):
afterwards the head of the search path is ".", the length has grown by
exactly one, and the previously present entries are preserved in their
original relative order as the tail. -/
theorem claim_path_insert_effect (p : List String) (md : Metadata) :
    (runScript p md).sysPath.head? = some "." ∧
      (runScript p md).sysPath.length = p.length + 1 ∧
      (runScript p md).sysPath.tail = p := by
  rw [runScript_sysPath]
  exact ⟨rfl, rfl, rfl⟩

/-- Claim C10: the packaging call receives exactly nine named arguments —
name, version, description, url, author, author_email, license, packages,
scripts, in that order — and nothing else (no dependency requirements, no
classifiers, no other optional fields), and packages and scripts are
one-element tuples (Python's immutable sequence literals). -/
theorem claim_exactly_nine_kwargs (p : List String)
    (n v d u a ae l : String) :
    ∃ kwargs,
      ((runScript p
          ⟨some n, some v, some d, some u, some a, some ae,
            some l⟩).events.filter Event.isSetupCall) =
        [Event.setupCall kwargs] ∧
      kwargs.length = 9 ∧
      kwargs.map Prod.fst =
        ["name", "version", "description", "url", "author", "author_email",
          "license", "packages", "scripts"] ∧
      kwargs.lookup "packages" = some (PyVal.tuple ["rindeal.travis_ci"]) ∧
      kwargs.lookup "scripts" = some (PyVal.tuple ["bin/travis-ci-utils"]) :=
  ⟨_, rfl, rfl, rfl, rfl, rfl⟩
